import Mathlib

/-!
Shallow embedding of the sprite-batching core of photon2d
(src/photon/src/photon2d.cpp, src/photon/include/photon2d.hpp).

Modelling conventions:
* `f32` scalars are modelled as rationals `F := ℚ`; the claims checked here
  are structural (which slots are written, counts, attachment), not about
  floating-point rounding.
* Pointers (`Texture*`, `SpriteBatch*`) are modelled as `Nat` identifiers;
  a sprite's back-reference `SpriteBatch *batch` becomes `Option Nat`
  (`none` = `nullptr`).
* The flat array `f32 *data` of `BATCH_SIZE * 6 * VERTEX_SIZE` floats is
  viewed slot-wise: `data : Nat → Block` where a `Block` is the six-vertex
  group `[i*6, i*6+6)` of slot `i`.  `memcpy`/`memset` of one slot's 48
  floats become whole-`Block` writes.
* `BATCH_SIZE` is a compile-time constant 10000 in the source; the spec's
  data model says capacity is "fixed, e.g. 10000", and its scenarios use a
  capacity-2 batch, so the batch carries its capacity as a field, with
  router-created batches using the source's constant.
-/

namespace Photon

abbrev F : Type := ℚ

structure Vec2 where
  x : F
  y : F
deriving DecidableEq

/-- Four-component vector; for colors read x,y,z,w as r,g,b,a (glm aliases). -/
structure Vec4 where
  x : F
  y : F
  z : F
  w : F
deriving DecidableEq

/-- One vertex: 2D position, RGBA color, texture coordinate (8 floats). -/
structure Vertex where
  px : F
  py : F
  r : F
  g : F
  b : F
  a : F
  u : F
  v : F
deriving DecidableEq

def zeroVertex : Vertex := ⟨0, 0, 0, 0, 0, 0, 0, 0⟩

/-- The 48-float vertex group of one slot: six vertices. -/
abbrev Block : Type := List Vertex

/-- A `memset` of one slot's 48 floats to zero. -/
def zeroBlock : Block := List.replicate 6 zeroVertex

/-- photon::Sprite (header lines 89-110).  Defaults mirror the in-class
initializers: detached (`batch = nullptr`), index 0, visible, opaque white
color, full unit texture rectangle. -/
structure Sprite where
  batch : Option Nat := none
  batchIndex : Nat := 0
  invisible : Bool := false
  pos : Vec2
  color : Vec4 := ⟨1, 1, 1, 1⟩
  size : Vec2
  texture : Nat
  texCoords : Vec4 := ⟨0, 0, 1, 1⟩
deriving DecidableEq

/-- The six-vertex encoding written by photon::SpriteBatch::updateSprite
(photon2d.cpp lines 462-469), two triangles over the sprite's rectangle. -/
def spriteVertices (s : Sprite) : Block :=
  [ ⟨s.pos.x, s.pos.y, s.color.x, s.color.y, s.color.z, s.color.w, s.texCoords.x, s.texCoords.w⟩,
    ⟨s.pos.x + s.size.x, s.pos.y, s.color.x, s.color.y, s.color.z, s.color.w, s.texCoords.z, s.texCoords.w⟩,
    ⟨s.pos.x + s.size.x, s.pos.y + s.size.y, s.color.x, s.color.y, s.color.z, s.color.w, s.texCoords.z, s.texCoords.y⟩,
    ⟨s.pos.x + s.size.x, s.pos.y + s.size.y, s.color.x, s.color.y, s.color.z, s.color.w, s.texCoords.z, s.texCoords.y⟩,
    ⟨s.pos.x, s.pos.y + s.size.y, s.color.x, s.color.y, s.color.z, s.color.w, s.texCoords.x, s.texCoords.y⟩,
    ⟨s.pos.x, s.pos.y, s.color.x, s.color.y, s.color.z, s.color.w, s.texCoords.x, s.texCoords.w⟩ ]

/-- SpriteBatch::BATCH_SIZE (header line 149). -/
def BATCH_SIZE : Nat := 10000

/-- photon::SpriteBatch (header lines 148-180).  `data` is the slot-wise view
of the batch's vertex array; the source's `new f32[...]` leaves it
uninitialized, so no claim may depend on dead-slot contents; the default here
is arbitrary.  `shouldBuffer` is the dirty flag. -/
structure SpriteBatch where
  capacity : Nat := BATCH_SIZE
  texture : Nat
  spriteCount : Nat := 0
  shouldBuffer : Bool := false
  data : Nat → Block := fun _ => zeroBlock

instance : Inhabited SpriteBatch := ⟨{ texture := 0 }⟩

/-- Write one slot of the flat array (a 48-float `memcpy` into slot `i`). -/
def setSlot (d : Nat → Block) (i : Nat) (blk : Block) : Nat → Block :=
  fun j => if j = i then blk else d j

/-- photon::SpriteBatch::hasSpace (photon2d.cpp lines 485-487). -/
def SpriteBatch.hasSpace (bt : SpriteBatch) : Bool :=
  bt.spriteCount < bt.capacity

/-- photon::SpriteBatch::rawSetVertices (photon2d.cpp lines 489-491). -/
def SpriteBatch.rawSetVertices (bt : SpriteBatch) (index : Nat) (vertices : Block) : SpriteBatch :=
  { bt with data := setSlot bt.data index vertices }

/-- photon::SpriteBatch::updateSprite (photon2d.cpp lines 461-473): rewrite
the six vertices at the sprite's cached slot, mark dirty. -/
def SpriteBatch.updateSprite (bt : SpriteBatch) (s : Sprite) : SpriteBatch :=
  { bt.rawSetVertices s.batchIndex (spriteVertices s) with shouldBuffer := true }

/-- photon::SpriteBatch::addSprite (photon2d.cpp lines 450-459).  `bid` is the
identity of this batch (the `this` pointer).  When the batch is full the body
is skipped entirely: the insert is silently dropped, nothing changes and no
error is produced. -/
def SpriteBatch.addSprite (bt : SpriteBatch) (bid : Nat) (s : Sprite) : SpriteBatch × Sprite :=
  if bt.hasSpace then
    let s' : Sprite := { s with batch := some bid, batchIndex := bt.spriteCount }
    let bt' : SpriteBatch := { bt with spriteCount := bt.spriteCount + 1 }
    (bt'.updateSprite s', s')
  else
    (bt, s)

/-- photon::SpriteBatch::removeSprite (photon2d.cpp lines 475-483): copy the
vertex block of slot `spriteCount-1` over the removed sprite's slot, zero slot
`spriteCount-1`, detach the removed sprite, decrement the count, mark dirty.
Note the function receives only the removed sprite: the batch has no handle on
whichever other sprite owned slot `spriteCount-1`, so no back-reference of any
other sprite can be (or is) updated. -/
def SpriteBatch.removeSprite (bt : SpriteBatch) (s : Sprite) : SpriteBatch × Sprite :=
  let d1 := setSlot bt.data s.batchIndex (bt.data (bt.spriteCount - 1))
  let d2 := setSlot d1 (bt.spriteCount - 1) zeroBlock
  ({ bt with data := d2, spriteCount := bt.spriteCount - 1, shouldBuffer := true },
   { s with batch := none, batchIndex := 0 })

/-- photon::Sprite::isAdded (photon2d.cpp lines 236-238). -/
def Sprite.isAdded (s : Sprite) : Bool :=
  s.batch.isSome

/-- photon::Sprite::update (photon2d.cpp lines 240-244) acting on the
renderer's batch list: if attached, delegate to the batch's updateSprite;
the sprite's own fields are never written. -/
def Sprite.updateOp (s : Sprite) (bs : List SpriteBatch) : Sprite × List SpriteBatch :=
  match s.batch with
  | some bid => (s, bs.set bid ((bs.getD bid default).updateSprite s))
  | none => (s, bs)

/-- photon::Sprite::remove (photon2d.cpp lines 263-269) acting on the
renderer's batch list: if attached, delegate to the batch's removeSprite then
clear the back-reference and slot index; otherwise a no-op. -/
def Sprite.removeOp (s : Sprite) (bs : List SpriteBatch) : Sprite × List SpriteBatch :=
  match s.batch with
  | some bid =>
      let r := (bs.getD bid default).removeSprite s
      ({ r.2 with batch := none, batchIndex := 0 }, bs.set bid r.1)
  | none => (s, bs)

/-- photon::Sprite::toggleInvisibility (photon2d.cpp lines 246-261), with `bt`
the batch the sprite's back-reference points at.  When visible: write an
all-zero vertex block at the cached slot (the calloc'd buffer), mark dirty,
set invisible.  When invisible: re-upload via update, clear invisible. -/
def Sprite.toggleInvisibility (s : Sprite) (bt : SpriteBatch) : Sprite × SpriteBatch :=
  if s.isAdded then
    if s.invisible then
      ({ s with invisible := false }, bt.updateSprite s)
    else
      ({ s with invisible := true },
       { bt.rawSetVertices s.batchIndex zeroBlock with shouldBuffer := true })
  else
    (s, bt)

/-- A batch as freshly constructed by photon::SpriteBatch::SpriteBatch
(photon2d.cpp lines 432-448): capacity BATCH_SIZE, count 0, not dirty. -/
def newBatch (t : Nat) : SpriteBatch :=
  { texture := t }

/-- The scan loop of photon::Renderer2D::addSprite (photon2d.cpp lines
534-540): first batch whose texture matches and has space receives the
sprite; `i` is the list position of the head (batch identity). -/
def Renderer2D.addSpriteScan : List SpriteBatch → Nat → Sprite → Option (List SpriteBatch × Sprite)
  | [], _, _ => none
  | bt :: rest, i, s =>
    if bt.texture = s.texture ∧ bt.hasSpace = true then
      some ((bt.addSprite i s).1 :: rest, (bt.addSprite i s).2)
    else
      match Renderer2D.addSpriteScan rest (i + 1) s with
      | some (rest', s') => some (bt :: rest', s')
      | none => none

/-- photon::Renderer2D::addSprite (photon2d.cpp lines 531-547): first-fit
scan; if no batch matched, construct a new batch for the sprite's texture,
insert there and push it at the back. -/
def Renderer2D.addSprite (bs : List SpriteBatch) (s : Sprite) : List SpriteBatch × Sprite :=
  match Renderer2D.addSpriteScan bs 0 s with
  | some r => r
  | none =>
      let r := (newBatch s.texture).addSprite bs.length s
      (bs ++ [r.1], r.2)

/-- An stbtt_aligned_quad: pixel-space corners and normalized texture
coordinates of a packed glyph. -/
structure Quad where
  x0 : F
  y0 : F
  x1 : F
  y1 : F
  s0 : F
  t0 : F
  s1 : F
  t1 : F
deriving DecidableEq

/-- The font service photon::Text::createSprites calls into (photon::Font,
backed by stb_truetype — external per the spec, §1/§6): per-character quad
lookup (Font::getGlyphQuad), kerning (Font::getGlyphKern), the scale
stbtt_ScaleForPixelHeight returns at line 383, and the atlas texture. -/
structure FontModel where
  glyphQuad : Char → Quad
  glyphKern : Char → Char → F
  scale : F
  texture : Nat

/-- photon::Font::getGlyphTexCoords (photon2d.cpp lines 359-366):
vec4(s0, t0, s1, t1) of the glyph's quad. -/
def FontModel.glyphTexCoords (fm : FontModel) (c : Char) : Vec4 :=
  ⟨(fm.glyphQuad c).s0, (fm.glyphQuad c).t0, (fm.glyphQuad c).s1, (fm.glyphQuad c).t1⟩

/-- The character loop of photon::Text::createSprites (photon2d.cpp lines
388-419), recursing on the remaining characters so `rest` plays the role of
`str[i+1..]` (the kerning lookahead `str[i+1]` is the head of `rest`).
Returns the sprites pushed so far, in order, together with the final pen
position `xPos`.  A space advances the pen by the '-' glyph's width (times
size, plus spacing and kerning against the next character) without emitting a
sprite; a character in [' ', '~'] emits one glyph sprite and advances the
pen; any other character does nothing at all. -/
def createSpritesAux (fm : FontModel) (size spacing yPos : F) : F → List Char → List Sprite × F
  | xPos, [] => ([], xPos)
  | xPos, c :: rest =>
    if c = ' ' then
      let lineQuad := fm.glyphQuad '-'
      let kern : F :=
        match rest with
        | next :: _ => fm.glyphKern '-' next
        | [] => 0
      createSpritesAux fm size spacing yPos
        (xPos + (lineQuad.x1 - lineQuad.x0) * size + spacing + kern * size * fm.scale) rest
    else if ' ' ≤ c ∧ c ≤ '~' then
      let quad := fm.glyphQuad c
      let kern : F :=
        match rest with
        | next :: _ => fm.glyphKern c next
        | [] => 0
      let sprite : Sprite :=
        { pos := ⟨xPos, yPos - quad.y1 * size⟩,
          size := ⟨(quad.x1 - quad.x0) * size, (quad.y1 - quad.y0) * size⟩,
          texture := fm.texture,
          texCoords := fm.glyphTexCoords c }
      let r := createSpritesAux fm size spacing yPos
        (xPos + (quad.x1 - quad.x0) * size + spacing + kern * size * fm.scale) rest
      (sprite :: r.1, r.2)
    else
      createSpritesAux fm size spacing yPos xPos rest

/-- photon::Text::createSprites (photon2d.cpp lines 377-420): walk the string
left to right from the text's position. -/
def Text.createSprites (fm : FontModel) (str : List Char) (pos : Vec2) (size spacing : F) : List Sprite × F :=
  createSpritesAux fm size spacing pos.y pos.x str

/-! Concrete scenario states used by the spec's §8 scenarios and as witnesses:
texture 0 throughout, sprites A (0,0), B (1,0), C (2,0), all of size (1,1). -/

def spriteA : Sprite := { pos := ⟨0, 0⟩, size := ⟨1, 1⟩, texture := 0 }

def spriteB : Sprite := { pos := ⟨1, 0⟩, size := ⟨1, 1⟩, texture := 0 }

def spriteC : Sprite := { pos := ⟨2, 0⟩, size := ⟨1, 1⟩, texture := 0 }

/-- The spec's §8 capacity-2 batch scenario, step 1: empty capacity-2 batch
for texture 0, insert A. -/
def stepA : SpriteBatch × Sprite :=
  SpriteBatch.addSprite { capacity := 2, texture := 0 } 0 spriteA

/-- Capacity-2 scenario, step 2: insert B. -/
def stepB : SpriteBatch × Sprite :=
  stepA.1.addSprite 0 spriteB

/-- Capacity-2 scenario, removal of A (the guard Sprite::isAdded holds:
stepA.2 is attached at slot 0). -/
def remA : SpriteBatch × Sprite :=
  stepB.1.removeSprite stepA.2

/-- B after the caller moved it (a plain setter: no propagation to the
batch), before calling update. -/
def movedB : Sprite := { stepB.2 with pos := ⟨5, 5⟩ }

/-- The batch after B's subsequent update following A's removal. -/
def updB : SpriteBatch :=
  remA.1.updateSprite movedB

/-- Default-capacity batch sequence for the invariant trace: insert A, B, C. -/
def seqA : SpriteBatch × Sprite :=
  SpriteBatch.addSprite { texture := 0 } 0 spriteA

def seqB : SpriteBatch × Sprite :=
  seqA.1.addSprite 0 spriteB

def seqC : SpriteBatch × Sprite :=
  seqB.1.addSprite 0 spriteC

/-- Invariant trace: remove A (attached at slot 0; guard holds). -/
def seqRemA : SpriteBatch × Sprite :=
  seqC.1.removeSprite seqA.2

/-- Invariant trace: then remove C (still attached, cached slot index 2;
guard holds). -/
def seqRemC : SpriteBatch × Sprite :=
  seqRemA.1.removeSprite seqC.2

/-! Helper lemmas (shared infrastructure, not claim theorems). -/

/-- The six-vertex encoding ignores the bookkeeping fields (back-reference,
slot index, visibility flag). -/
theorem spriteVertices_attach (s : Sprite) (ob : Option Nat) (i : Nat) :
    spriteVertices { s with batch := ob, batchIndex := i } = spriteVertices s := rfl

theorem spriteVertices_invisible (s : Sprite) (b : Bool) :
    spriteVertices { s with invisible := b } = spriteVertices s := rfl

/-- A successful insert attaches the sprite to the inserting batch and leaves
the batch's texture unchanged. -/
theorem addSprite_of_hasSpace (bt : SpriteBatch) (bid : Nat) (s : Sprite)
    (h : bt.hasSpace = true) :
    (bt.addSprite bid s).2.batch = some bid ∧ (bt.addSprite bid s).1.texture = bt.texture := by
  simp [SpriteBatch.addSprite, h, SpriteBatch.updateSprite, SpriteBatch.rawSetVertices]

theorem getD_concat_length (l : List SpriteBatch) (x d : SpriteBatch) :
    (l ++ [x]).getD l.length d = x := by
  induction l with
  | nil => rfl
  | cons a t ih => simp [ih]

/-! Claim theorems. -/

/-- C1: the spec requires removeAt to update the other entity that owned slot
count-1 so that its cached index points at the vacated slot; the code's
removeSprite receives only the removed sprite and updates no other
back-reference.  Concretely: with A at slot 0 and B at slot 1, removing A
compacts B's data into slot 0 but leaves B's cached index at 1, and B's
subsequent update writes slot 1 (a dead slot), leaving live slot 0 with B's
stale pre-move data. -/
theorem removeSprite_missing_backref_fixup :
    stepB.2.batchIndex = 1 ∧
    remA.1.spriteCount = 1 ∧
    remA.1.data 0 = spriteVertices stepB.2 ∧
    updB.data 1 = spriteVertices movedB ∧
    updB.data 0 = spriteVertices stepB.2 ∧
    spriteVertices stepB.2 ≠ spriteVertices movedB := by
  refine ⟨rfl, rfl, rfl, rfl, rfl, by decide⟩

/-- C2: after two inserts fill the capacity-2 batch, count is 2 and
hasSpace() is false; but a third insert does not fail with CapacityExceeded —
no such error exists in the code — it is silently dropped: the batch is
returned unchanged and sprite C is left detached. -/
theorem addSprite_full_silently_drops :
    stepB.1.spriteCount = 2 ∧
    stepB.1.hasSpace = false ∧
    stepB.1.addSprite 0 spriteC = (stepB.1, spriteC) ∧
    (stepB.1.addSprite 0 spriteC).2.batch = none := by
  refine ⟨rfl, rfl, rfl, rfl⟩

/-- C3: the contiguity invariant fails on the code.  After insert A, insert
B, insert C, remove A, remove C (every remove passing the isAdded guard), the
count is 1 and the only live entity is B, yet slot 0 — the entire live range
— holds C's vertex data, which differs from B's, and B's data was zeroed. -/
theorem batch_contiguity_invariant_violated :
    seqRemC.1.spriteCount = 1 ∧
    seqB.2.isAdded = true ∧
    seqRemC.1.data 0 = spriteVertices seqC.2 ∧
    spriteVertices seqC.2 ≠ spriteVertices seqB.2 ∧
    seqRemC.1.data 1 = zeroBlock := by
  refine ⟨rfl, rfl, rfl, by decide, rfl⟩

/-- C4: with space available, insert writes the entity's six vertices at slot
count, attaches the entity to this batch with slot index count, increments
count and sets the dirty flag. -/
theorem addSprite_inserts_at_count (bt : SpriteBatch) (bid : Nat) (s : Sprite)
    (h : bt.spriteCount < bt.capacity) :
    (bt.addSprite bid s).2.batch = some bid ∧
    (bt.addSprite bid s).2.batchIndex = bt.spriteCount ∧
    (bt.addSprite bid s).1.spriteCount = bt.spriteCount + 1 ∧
    (bt.addSprite bid s).1.shouldBuffer = true ∧
    (bt.addSprite bid s).1.data bt.spriteCount = spriteVertices s := by
  have hs : bt.hasSpace = true := by simp [SpriteBatch.hasSpace, h]
  simp [SpriteBatch.addSprite, hs, SpriteBatch.updateSprite, SpriteBatch.rawSetVertices, setSlot]
  exact spriteVertices_attach s (some bid) bt.spriteCount

theorem addSprite_inserts_at_count_witness :
    (0 : Nat) < 2 ∧
    ((SpriteBatch.addSprite { capacity := 2, texture := 0 } 0 spriteA).2.batch = some 0 ∧
     (SpriteBatch.addSprite { capacity := 2, texture := 0 } 0 spriteA).2.batchIndex = 0 ∧
     (SpriteBatch.addSprite { capacity := 2, texture := 0 } 0 spriteA).1.spriteCount = 0 + 1 ∧
     (SpriteBatch.addSprite { capacity := 2, texture := 0 } 0 spriteA).1.shouldBuffer = true ∧
     (SpriteBatch.addSprite { capacity := 2, texture := 0 } 0 spriteA).1.data 0 = spriteVertices spriteA) :=
  ⟨by decide, addSprite_inserts_at_count { capacity := 2, texture := 0 } 0 spriteA (by decide)⟩

/-- C7: update() and remove() on a detached entity (null back-reference) are
no-ops: the entity and the whole batch list are returned unchanged. -/
theorem detached_update_remove_noop (s : Sprite) (bs : List SpriteBatch)
    (h : s.batch = none) :
    s.updateOp bs = (s, bs) ∧ s.removeOp bs = (s, bs) := by
  simp [Sprite.updateOp, Sprite.removeOp, h]

theorem detached_update_remove_noop_witness :
    spriteA.batch = none ∧
    (spriteA.updateOp [stepB.1] = (spriteA, [stepB.1]) ∧
     spriteA.removeOp [stepB.1] = (spriteA, [stepB.1])) :=
  ⟨rfl, detached_update_remove_noop spriteA [stepB.1] rfl⟩

/-- C10: removal writes only the removed sprite's slot and slot count-1;
every other slot of the batch's storage is unchanged. -/
theorem removeSprite_touches_only_two_slots (bt : SpriteBatch) (s : Sprite) (j : Nat)
    (h1 : 1 ≤ bt.spriteCount) (h2 : s.isAdded = true)
    (hj1 : j ≠ s.batchIndex) (hj2 : j ≠ bt.spriteCount - 1) :
    (bt.removeSprite s).1.data j = bt.data j := by
  simp [SpriteBatch.removeSprite, setSlot, hj1, hj2]

theorem removeSprite_touches_only_two_slots_witness :
    1 ≤ seqC.1.spriteCount ∧ seqA.2.isAdded = true ∧ (7 : Nat) ≠ seqA.2.batchIndex ∧
    (7 : Nat) ≠ seqC.1.spriteCount - 1 ∧
    (seqC.1.removeSprite seqA.2).1.data 7 = seqC.1.data 7 :=
  ⟨by decide, rfl, by decide, by decide,
   removeSprite_touches_only_two_slots seqC.1 seqA.2 7 (by decide) rfl (by decide) (by decide)⟩

/-- A, attached at slot 0, after the caller moved it with a plain setter and
before any update: the slot still holds the encoding of the old position. -/
def movedA : Sprite := { seqA.2 with pos := ⟨5, 5⟩ }

def togglePair1 : Sprite × SpriteBatch := movedA.toggleInvisibility seqA.1

def togglePair2 : Sprite × SpriteBatch := togglePair1.1.toggleInvisibility togglePair1.2

/-- C6 counterexample: an attached sprite whose descriptor fields are
unchanged between the two toggle calls, yet the toggle-on/toggle-off pair
does not restore the slot's pre-toggle data: the sprite had been moved by a
setter (no propagation) after its last upload, so toggle-off re-uploads the
new descriptor, not the data that was in the slot before toggle-on. -/
theorem toggle_pair_not_restoring :
    movedA.isAdded = true ∧
    movedA.invisible = false ∧
    togglePair1.1.pos = movedA.pos ∧
    togglePair1.1.size = movedA.size ∧
    togglePair1.1.color = movedA.color ∧
    togglePair1.1.texCoords = movedA.texCoords ∧
    togglePair2.2.data movedA.batchIndex ≠ seqA.1.data movedA.batchIndex := by
  refine ⟨rfl, rfl, rfl, rfl, rfl, rfl, by decide⟩

/-- C6 amended: for every attached, visible sprite whose slot currently holds
the six-vertex encoding of its descriptor (no pending un-uploaded mutation),
toggling invisibility on and then off restores the slot's six-vertex data
exactly. -/
theorem toggle_pair_restores_synced_slot (s : Sprite) (bt : SpriteBatch)
    (hAdd : s.isAdded = true) (hVis : s.invisible = false)
    (hSync : bt.data s.batchIndex = spriteVertices s) :
    ((s.toggleInvisibility bt).1.toggleInvisibility (s.toggleInvisibility bt).2).2.data s.batchIndex
      = bt.data s.batchIndex := by
  have hb : s.batch.isSome = true := hAdd
  simp [Sprite.toggleInvisibility, Sprite.isAdded, hb, hVis, SpriteBatch.updateSprite,
    SpriteBatch.rawSetVertices, setSlot, spriteVertices_invisible, hSync]

theorem toggle_pair_restores_synced_slot_witness :
    seqA.2.isAdded = true ∧ seqA.2.invisible = false ∧
    seqA.1.data seqA.2.batchIndex = spriteVertices seqA.2 ∧
    ((seqA.2.toggleInvisibility seqA.1).1.toggleInvisibility
        (seqA.2.toggleInvisibility seqA.1).2).2.data seqA.2.batchIndex
      = seqA.1.data seqA.2.batchIndex :=
  ⟨rfl, rfl, rfl, toggle_pair_restores_synced_slot seqA.2 seqA.1 rfl rfl rfl⟩

/-- The scan loop, when it inserts somewhere, attaches the sprite to the
position-`i+k` batch, which has the sprite's texture, and changes no batch
count structure beyond that position's batch. -/
theorem addSpriteScan_some (s : Sprite) (bs : List SpriteBatch) :
    ∀ (i : Nat) (r : List SpriteBatch × Sprite),
      Renderer2D.addSpriteScan bs i s = some r →
      ∃ k, k < bs.length ∧ r.2.batch = some (i + k) ∧ r.1.length = bs.length ∧
        (r.1.getD k default).texture = s.texture := by
  induction bs with
  | nil =>
    intro i r h
    simp [Renderer2D.addSpriteScan] at h
  | cons bt rest ih =>
    intro i r h
    rw [Renderer2D.addSpriteScan] at h
    by_cases hc : bt.texture = s.texture ∧ bt.hasSpace = true
    · rw [if_pos hc] at h
      injection h with h
      subst h
      refine ⟨0, by simp, ?_, by simp, ?_⟩
      · simpa using (addSprite_of_hasSpace bt i s hc.2).1
      · simpa [List.getD] using (addSprite_of_hasSpace bt i s hc.2).2.trans hc.1
    · rw [if_neg hc] at h
      cases hrec : Renderer2D.addSpriteScan rest (i + 1) s with
      | none => rw [hrec] at h; cases h
      | some r' =>
        obtain ⟨rest', s'⟩ := r'
        rw [hrec] at h
        injection h with h
        subst h
        obtain ⟨k, hk1, hk2, hk3, hk4⟩ := ih (i + 1) (rest', s') hrec
        refine ⟨k + 1, by simpa using hk1, ?_, by simpa using hk3, by simpa using hk4⟩
        rw [hk2]
        congr 1
        omega

/-- C9: after Renderer2D::addSprite the sprite is attached to some batch in
the resulting list whose texture equals the sprite's texture — when no
existing batch matched (all full, or none of this texture), the freshly
constructed batch has space, so the insert there always succeeds. -/
theorem routerAdd_attaches_matching (bs : List SpriteBatch) (s : Sprite) :
    ∃ k, (Renderer2D.addSprite bs s).2.batch = some k ∧
      k < (Renderer2D.addSprite bs s).1.length ∧
      ((Renderer2D.addSprite bs s).1.getD k default).texture = s.texture := by
  unfold Renderer2D.addSprite
  cases hscan : Renderer2D.addSpriteScan bs 0 s with
  | some r =>
    obtain ⟨k, hk1, hk2, hk3, hk4⟩ := addSpriteScan_some s bs 0 r hscan
    exact ⟨k, by simpa using hk2, by rw [hk3]; exact hk1, hk4⟩
  | none =>
    have hs : (newBatch s.texture).hasSpace = true := by
      simp [newBatch, SpriteBatch.hasSpace, BATCH_SIZE]
    obtain ⟨ha, ht⟩ := addSprite_of_hasSpace (newBatch s.texture) bs.length s hs
    refine ⟨bs.length, by simpa using ha, by simp, ?_⟩
    rw [getD_concat_length]
    rw [ht]
    rfl

/-- C8: in the character loop of Text::createSprites, a space emits no quad
but advances the pen by the fixed '-' glyph's width times the text size, plus
spacing, plus the kerning of '-' against the next character; any character
outside the printable range [' ', '~'] contributes nothing at all — no
sprite, no error, no pen advance. -/
theorem createSprites_space_skip (fm : FontModel) (size spacing yPos xPos : F)
    (c : Char) (rest : List Char) :
    (c = ' ' →
      createSpritesAux fm size spacing yPos xPos (c :: rest) =
        createSpritesAux fm size spacing yPos
          (xPos + ((fm.glyphQuad '-').x1 - (fm.glyphQuad '-').x0) * size + spacing +
            (match rest with | next :: _ => fm.glyphKern '-' next | [] => 0) * size * fm.scale)
          rest) ∧
    (¬ (' ' ≤ c ∧ c ≤ '~') →
      createSpritesAux fm size spacing yPos xPos (c :: rest) =
        createSpritesAux fm size spacing yPos xPos rest) := by
  constructor
  · intro h
    subst h
    simp [createSpritesAux]
  · intro h
    have hns : ¬ (c = ' ') := by
      intro he
      exact h (by rw [he]; exact ⟨le_refl _, by decide⟩)
    simp only [createSpritesAux]
    rw [if_neg hns, if_neg h]

/-- A concrete font service: every glyph a 2x3 quad, unit kerning, unit
scale, atlas texture 7. -/
def sampleFont : FontModel :=
  { glyphQuad := fun _ => ⟨0, 0, 2, 3, 0, 0, 1, 1⟩,
    glyphKern := fun _ _ => 1,
    scale := 1,
    texture := 7 }

theorem createSprites_space_skip_witness :
    (createSpritesAux sampleFont 1 1 0 0 (' ' :: ['A']) =
      createSpritesAux sampleFont 1 1 0 (0 + (2 - 0) * 1 + 1 + 1 * 1 * 1) ['A']) ∧
    (createSpritesAux sampleFont 1 1 0 0 ('\n' :: ['A']) =
      createSpritesAux sampleFont 1 1 0 0 ['A']) :=
  ⟨(createSprites_space_skip sampleFont 1 1 0 0 ' ' ['A']).1 rfl,
   (createSprites_space_skip sampleFont 1 1 0 0 '\n' ['A']).2 (by decide)⟩

/-- C5: starting from an empty router, adding two sprites of texture t1 and
one of texture t2 (t1 ≠ t2) in any presentation order yields exactly two
batches: the t1 batch holding 2 sprites and the t2 batch holding 1 — each
sprite lands in the first existing batch with matching texture and space,
otherwise in a freshly created batch. -/
theorem router_first_fit_two_textures (t1 t2 : Nat) (s1 s2 s3 : Sprite)
    (hne : t1 ≠ t2) (h1 : s1.texture = t1) (h2 : s2.texture = t1) (h3 : s3.texture = t2) :
    ∀ ord ∈ [[s1, s2, s3], [s1, s3, s2], [s2, s1, s3], [s2, s3, s1], [s3, s1, s2], [s3, s2, s1]],
      (ord.foldl (fun bs s => (Renderer2D.addSprite bs s).1) []).map
          (fun bt => (bt.texture, bt.spriteCount)) = [(t1, 2), (t2, 1)] ∨
      (ord.foldl (fun bs s => (Renderer2D.addSprite bs s).1) []).map
          (fun bt => (bt.texture, bt.spriteCount)) = [(t2, 1), (t1, 2)] := by
  have hne' : t2 ≠ t1 := hne.symm
  intro ord hord
  simp only [List.mem_cons, List.not_mem_nil, or_false] at hord
  rcases hord with rfl | rfl | rfl | rfl | rfl | rfl <;>
    norm_num [Renderer2D.addSprite, Renderer2D.addSpriteScan, SpriteBatch.addSprite,
      SpriteBatch.hasSpace, SpriteBatch.updateSprite, SpriteBatch.rawSetVertices, newBatch,
      BATCH_SIZE, h1, h2, h3, hne, hne', List.foldl, setSlot]

theorem router_first_fit_two_textures_witness :
    (0 : Nat) ≠ 1 ∧ spriteA.texture = 0 ∧ spriteB.texture = 0 ∧
    (([spriteA, spriteB, { spriteC with texture := 1 }].foldl
        (fun bs s => (Renderer2D.addSprite bs s).1) []).map
        (fun bt => (bt.texture, bt.spriteCount)) = [(0, 2), (1, 1)] ∨
      ([spriteA, spriteB, { spriteC with texture := 1 }].foldl
        (fun bs s => (Renderer2D.addSprite bs s).1) []).map
        (fun bt => (bt.texture, bt.spriteCount)) = [(1, 1), (0, 2)]) :=
  ⟨by decide, rfl, rfl,
   router_first_fit_two_textures 0 1 spriteA spriteB { spriteC with texture := 1 }
     (by decide) rfl rfl rfl [spriteA, spriteB, { spriteC with texture := 1 }]
     (by simp)⟩

end Photon
